import Mathlib

/-!
Shallow embedding of `src/b0/socket.cpp` (the b0 socket session layer):
the envelope data model, the framing read/write paths, the header check,
the debug-introspection pattern matcher and payload renderer, and the
socket option store.  C++ `std::string` is modelled as `List Char`
(written `Str`), byte payloads as `List Nat`, the `std::map` header
mapping as an association list, and thrown exceptions as an error type
returned through `Except`.  The external envelope and message codecs are
parameters (they live outside this translation unit).  An out-of-bounds
`std::vector::operator[]` access (undefined behaviour in C++) is
modelled by an `Option` wrapper returning `none`.
-/

namespace B0

/-- C++ `std::string`, modelled as its character sequence. -/
abbrev Str := List Char

/-- Coerce a Lean string literal into the model's string type. -/
def toStr (s : String) : Str := s.data

/-- `b0::message::MessagePart`: one payload with content type and compression hints. -/
structure MessagePart where
  payload : Str
  content_type : Str
  compression_algorithm : Str
  compression_level : Int
deriving DecidableEq

/-- `b0::message::MessageEnvelope`: ordered parts plus a string-to-string header map,
modelled as an association list (first match wins, mirroring `std::map` uniqueness). -/
structure MessageEnvelope where
  parts : List MessagePart
  headers : List (Str × Str)
deriving DecidableEq

/-- Lookup in the header map, modelling `std::map::at` (which throws on a missing
key); a missing key yields `none`. -/
def mapAt (m : List (Str × Str)) (k : Str) : Option Str :=
  match m with
  | [] => none
  | (k', v) :: rest => if k' = k then some v else mapAt rest k

/-- Insertion-or-update in the header map, modelling `std::map::operator[]` assignment. -/
def mapInsert (m : List (Str × Str)) (k v : Str) : List (Str × Str) :=
  match m with
  | [] => [(k, v)]
  | (k', v') :: rest => if k' = k then (k, v) :: rest else (k', v') :: mapInsert rest k v

/-- The exceptions thrown by the read/write paths of `socket.cpp`.
`outOfRange` stands for the `std::out_of_range` thrown by `headers.at` on a
missing key; `codecFailure` stands for a failure propagated as-is from the
external envelope or message codec. -/
inductive SocketError where
  | socketReadError
  | socketWriteError
  | messageTooManyPartsError
  | headerMismatch (actual expected : Str)
  | envelopeDecodeError
  | outOfRange
  | codecFailure
deriving DecidableEq

/-- The state of a `b0::Socket` relevant to the framing paths: its own name, the
owning node's name (`node_.getName()`), the header-required flag, the current
compression defaults, and the integer option store of the underlying zmq socket
(a map from option id to value). -/
structure Socket where
  name_ : Str
  node_name_ : Str
  has_header_ : Bool
  compression_algorithm_ : Str
  compression_level_ : Int
  options : Int → Int

/-- The `ZMQ_LINGER` option id (value 17 in `zmq.h`). -/
def ZMQ_LINGER : Int := 17

/-- `Socket::setIntOption`: store an integer option on the underlying socket. -/
def setIntOption (s : Socket) (option value : Int) : Socket :=
  { s with options := fun o => if o = option then value else s.options o }

/-- `Socket::getIntOption`: read an integer option of the underlying socket. -/
def getIntOption (s : Socket) (option : Int) : Int :=
  s.options option

/-- `Socket::setLingerPeriod`: sets `ZMQ_LINGER`. -/
def setLingerPeriod (s : Socket) (period : Int) : Socket :=
  setIntOption s ZMQ_LINGER period

/-- `Socket::getLingerPeriod`: reads `ZMQ_LINGER`. -/
def getLingerPeriod (s : Socket) : Int :=
  getIntOption s ZMQ_LINGER

/-- `Socket::Socket(node, type, name, managed)`: the constructor initialises
`has_header_` to `false` and unconditionally calls `setLingerPeriod(5000)`.
`defaults` is the option store of the freshly created transport handle. -/
def Socket.construct (node_name name : Str) (defaults : Int → Int) : Socket :=
  let s : Socket :=
    { name_ := name
      node_name_ := node_name
      has_header_ := false
      compression_algorithm_ := []
      compression_level_ := 0
      options := defaults }
  setLingerPeriod s 5000

/-- `Socket::setHasHeader`. -/
def setHasHeader (s : Socket) (has_header : Bool) : Socket :=
  { s with has_header_ := has_header }

/-- Index of the first occurrence of a character, modelling `std::string::find`. -/
def findChar (c : Char) : Str → Option Nat
  | [] => none
  | x :: xs => if x = c then some 0 else (findChar c xs).map (· + 1)

/-- `Socket::matchesPattern`: `"*"` matches anything; otherwise split at the
first `.` into a node part and a socket part and compare each against the
node's name and the socket's name, with `"*"` as a per-segment wildcard;
a pattern with no `.` does not match. -/
def Socket.matchesPattern (s : Socket) (pattern : Str) : Bool :=
  if pattern = toStr "*" then true
  else
    match findChar '.' pattern with
    | some pos =>
        let np := pattern.take pos
        let sp := pattern.drop (pos + 1)
        (np = toStr "*" || np = s.node_name_) && (sp = toStr "*" || sp = s.name_)
    | none => false

/-- Splitting at any of a set of separator characters, modelling
`boost::split(v, s, boost::is_any_of(":;"))`; splitting the empty string
yields one empty token. -/
def splitAny (seps : List Char) : Str → List Str
  | [] => [[]]
  | c :: rest =>
      let r := splitAny seps rest
      if c ∈ seps then [] :: r
      else
        match r with
        | [] => [[c]]
        | h :: t => (c :: h) :: t

/-- The debug-enable decision of `dumpPayload`: split the `B0_DEBUG_SOCKET`
setting at `:` or `;` and enable when any token matches the socket's pattern. -/
def debugEnabled (s : Socket) (debug_socket : Str) : Bool :=
  (splitAny [':', ';'] debug_socket).any s.matchesPattern

/-- Lowercase hexadecimal digit, as produced by `boost::format("%02x")`. -/
def hexDigit (n : Nat) : Char :=
  if n < 10 then Char.ofNat (48 + n) else Char.ofNat (87 + n)

/-- Rendering of one payload byte in the compact debug mode of `dumpPayload`:
`\n`, `\r`, `\t` as two-character escapes, any other byte outside 32..126 as a
four-character `\xHH` escape, printable bytes unchanged. -/
def renderByte (c : Nat) : Str :=
  if c = 10 then ['\\', 'n']
  else if c = 13 then ['\\', 'r']
  else if c = 9 then ['\\', 't']
  else if c < 32 || c > 126 then ['\\', 'x', hexDigit (c / 16), hexDigit (c % 16)]
  else [Char.ofNat c]

/-- Compact rendering of a whole payload byte sequence. -/
def renderPayload (payload : List Nat) : Str :=
  (payload.map renderByte).flatten

/-- Decimal rendering of a length, for the trace prefix. -/
def natToStr (n : Nat) : Str :=
  Nat.toDigits 10 n

/-- `dumpPayload`: the trace line printed for one read or write, or `none` when
debug introspection is not enabled for this socket.  `debug_socket` and `ext`
are the process-wide `B0_DEBUG_SOCKET` and `B0_DEBUG_SOCKET_EXTENDED`
settings; an absent setting reads as the empty string. -/
def dumpPayload (s : Socket) (debug_socket : Str) (ext : Bool) (op : Str)
    (payload : List Nat) : Option Str :=
  if debugEnabled s debug_socket then
    some
      (if ext then
        toStr "socket " ++ s.node_name_ ++ toStr "." ++ s.name_ ++ toStr " " ++ op
          ++ toStr " " ++ natToStr payload.length ++ toStr " bytes:\n\n"
          ++ payload.map Char.ofNat ++ toStr "\n"
      else
        toStr "B0_DEBUG_SOCKET[sock=" ++ s.node_name_ ++ toStr "." ++ s.name_
          ++ toStr ", op=" ++ op ++ toStr ", len=" ++ natToStr payload.length
          ++ toStr "]: " ++ renderPayload payload)
  else none

/-- One received transport datagram as seen by `readRaw`: whether the receive
call succeeded, whether the transport flags further frames of the same message
(`msg_payload.more()`), and the raw bytes. -/
structure WireInput where
  recv_ok : Bool
  more : Bool
  payload : List Nat

/-- The key `"Header"`. -/
def hdrKey : Str := toStr "Header"

/-- `Socket::readRaw(MessageEnvelope&)`: fail with `SocketReadError` when the
receive fails; fail with `MessageTooManyPartsError` when the datagram has more
transport frames; decode the bytes through the external envelope codec
`decode`; when `has_header_` is set, look up `headers["Header"]` (a missing key
throws `std::out_of_range`) and fail with `HeaderMismatch(actual, expected)`
unless it equals the socket's own name. -/
def readRawEnv (decode : List Nat → Except SocketError MessageEnvelope)
    (s : Socket) (w : WireInput) : Except SocketError MessageEnvelope :=
  if !w.recv_ok then .error .socketReadError
  else if w.more then .error .messageTooManyPartsError
  else
    match decode w.payload with
    | .error e => .error e
    | .ok env =>
        if s.has_header_ then
          match mapAt env.headers hdrKey with
          | none => .error .outOfRange
          | some hdr =>
              if hdr ≠ s.name_ then .error (.headerMismatch hdr s.name_)
              else .ok env
        else .ok env

/-- `Socket::readRaw(std::vector<MessagePart>&)`: decode an envelope and yield
its parts list. -/
def readRawParts (decode : List Nat → Except SocketError MessageEnvelope)
    (s : Socket) (w : WireInput) : Except SocketError (List MessagePart) :=
  match readRawEnv decode s w with
  | .error e => .error e
  | .ok env => .ok env.parts

/-- `Socket::readRaw(std::string&, std::string&)`: read a parts list and yield
the first part's payload and content type.  The C++ code indexes `parts[0]`
without a bounds check, so an empty parts list is an out-of-bounds
`std::vector` access — undefined behaviour, modelled as `none`. -/
def readRawStrType (decode : List Nat → Except SocketError MessageEnvelope)
    (s : Socket) (w : WireInput) : Option (Except SocketError (Str × Str)) :=
  match readRawParts decode s w with
  | .error e => some (.error e)
  | .ok parts =>
      match parts.head? with
      | none => none
      | some p0 => some (.ok (p0.payload, p0.content_type))

/-- The observable contract of an abstract `b0::message::Message` kind: its
type tag (`msg.type()`) and its decode operation (`msg.parseFromString`),
which replaces the message object's value. -/
structure MsgModel (M : Type) where
  type : Str
  parse : M → Str → M

/-- `Socket::readMsg(Message&)`: read one payload and type, fail with
`EnvelopeDecodeError` when the type does not equal the expected message's type
tag, otherwise decode the payload into the message.  The result pairs the
call's outcome with the final value of the caller's message object; `none`
marks the undefined behaviour inherited from the unguarded `parts[0]`. -/
def readMsg1 {M : Type} (mm : MsgModel M)
    (decode : List Nat → Except SocketError MessageEnvelope)
    (s : Socket) (w : WireInput) (msg : M) :
    Option (Except SocketError Unit × M) :=
  match readRawStrType decode s w with
  | none => none
  | some (.error e) => some (.error e, msg)
  | some (.ok (strv, typev)) =>
      if typev ≠ mm.type then some (.error .envelopeDecodeError, msg)
      else some (.ok (), mm.parse msg strv)

/-- `Socket::readMsg(Message&, std::vector<MessagePart>&)`: read the parts
list, fail with `EnvelopeDecodeError` when the first part's content type does
not equal the expected type tag (the parts out-parameter keeps the full list,
already assigned before the throw), otherwise decode the first part's payload
and erase that part from the list.  `parts0` is the out-parameter's value
before the call; `none` again marks the unguarded `parts[0]` on an empty
list. -/
def readMsg2 {M : Type} (mm : MsgModel M)
    (decode : List Nat → Except SocketError MessageEnvelope)
    (s : Socket) (w : WireInput) (msg : M) (parts0 : List MessagePart) :
    Option (Except SocketError Unit × M × List MessagePart) :=
  match readRawParts decode s w with
  | .error e => some (.error e, msg, parts0)
  | .ok parts =>
      match parts with
      | [] => none
      | p0 :: rest =>
          if p0.content_type ≠ mm.type then
            some (.error .envelopeDecodeError, msg, p0 :: rest)
          else some (.ok (), mm.parse msg p0.payload, rest)

/-- `Socket::writeRaw(const std::vector<MessagePart>&)`: wrap the parts in a
fresh envelope and, when `has_header_` is set, stamp
`headers["Header"] = name_` before encoding.  The result is the envelope
handed to the encoder, i.e. what goes on the wire. -/
def writeRawParts (s : Socket) (parts : List MessagePart) : MessageEnvelope :=
  let env : MessageEnvelope := { parts := parts, headers := [] }
  if s.has_header_ then { env with headers := mapInsert env.headers hdrKey s.name_ }
  else env

/-- `Socket::writeRaw(const std::string&, const std::string&)`: build a single
part carrying the socket's current compression defaults and write it. -/
def writeRawStrType (s : Socket) (msg ty : Str) : MessageEnvelope :=
  writeRawParts s
    [{ payload := msg
       content_type := ty
       compression_algorithm := s.compression_algorithm_
       compression_level := s.compression_level_ }]

/-- `Socket::writeMsg(const Message&)`: serialize the message through its own
encoder `ser`, tag it with its type, and write it as a single part. -/
def writeMsg1 {M : Type} (mm : MsgModel M) (ser : M → Str) (s : Socket)
    (msg : M) : MessageEnvelope :=
  writeRawStrType s (ser msg) mm.type

/-- `Socket::writeMsg(const Message&, const std::vector<MessagePart>&)`:
prepend the serialized message as the primary part to the caller's parts and
write the resulting list. -/
def writeMsg2 {M : Type} (mm : MsgModel M) (ser : M → Str) (s : Socket)
    (msg : M) (parts : List MessagePart) : MessageEnvelope :=
  writeRawParts s
    ({ payload := ser msg
       content_type := mm.type
       compression_algorithm := s.compression_algorithm_
       compression_level := s.compression_level_ } :: parts)

/-- A concrete socket used to instantiate universally quantified statements:
node `robot1`, socket `odom`, header checking enabled. -/
def sampleSocket : Socket :=
  setHasHeader (Socket.construct (toStr "robot1") (toStr "odom") (fun _ => 0)) true

/-- A concrete envelope whose header does not name `sampleSocket`. -/
def sampleEnvBad : MessageEnvelope :=
  { parts := [{ payload := toStr "x", content_type := toStr "t",
                compression_algorithm := [], compression_level := 0 }]
    headers := [(hdrKey, toStr "odom2")] }

/-- A concrete envelope whose header names `sampleSocket`. -/
def sampleEnvGood : MessageEnvelope :=
  { parts := [{ payload := toStr "x", content_type := toStr "t",
                compression_algorithm := [], compression_level := 0 }]
    headers := [(hdrKey, toStr "odom")] }

/-- A concrete wire input representing one intact received datagram. -/
def sampleWire : WireInput :=
  { recv_ok := true, more := false, payload := [] }

theorem findChar_eq_none {c : Char} : ∀ {l : Str}, findChar c l = none ↔ c ∉ l
  | [] => by simp [findChar]
  | x :: xs => by
      by_cases hx : x = c
      · subst hx
        simp [findChar]
      · rw [findChar, if_neg hx, Option.map_eq_none', findChar_eq_none]
        constructor
        · intro h hmem
          rcases List.mem_cons.mp hmem with he | hm
          · exact hx he.symm
          · exact h hm
        · intro h hm
          exact h (List.mem_cons_of_mem x hm)

theorem findChar_append {np sp : Str} (h : '.' ∉ np) :
    findChar '.' (np ++ '.' :: sp) = some np.length := by
  induction np with
  | nil => simp [findChar]
  | cons x xs ih =>
      have hx : x ≠ '.' := fun hxe => h (hxe ▸ List.mem_cons_self x xs)
      have hxs : '.' ∉ xs := fun hm => h (List.mem_cons_of_mem x hm)
      simp [findChar, hx, ih hxs]

theorem drop_append_cons (np : Str) (c : Char) (sp : Str) :
    (np ++ c :: sp).drop (np.length + 1) = sp := by
  have h1 : np ++ c :: sp = (np ++ [c]) ++ sp := by simp
  have h2 : np.length + 1 = (np ++ [c]).length := by simp
  rw [h1, h2, List.drop_left]

/-- C5: the pattern cases of `matchesPattern`, taken in order: `"*"` matches
unconditionally; any other pattern with no `.` separator never matches; a
pattern `np.sp` (split at the first `.`, so `np` holds no `.`) matches iff
(`np` is `"*"` or equals the node's name) and (`sp` is `"*"` or equals the
socket's own name), by exact case-sensitive string equality. -/
theorem matchesPattern_spec (s : Socket) :
    (s.matchesPattern (toStr "*") = true)
    ∧ (∀ p : Str, p ≠ toStr "*" → '.' ∉ p → s.matchesPattern p = false)
    ∧ (∀ np sp : Str, '.' ∉ np →
        s.matchesPattern (np ++ '.' :: sp)
          = ((np = toStr "*" || np = s.node_name_)
              && (sp = toStr "*" || sp = s.name_))) := by
  refine ⟨by simp [Socket.matchesPattern], ?_, ?_⟩
  · intro p hstar hdot
    rw [Socket.matchesPattern, if_neg hstar, findChar_eq_none.mpr hdot]
  · intro np sp hdot
    have hmem : '.' ∈ np ++ '.' :: sp :=
      List.mem_append_right np (List.mem_cons_self '.' sp)
    have hstar : np ++ '.' :: sp ≠ toStr "*" := by
      intro he
      rw [he] at hmem
      exact absurd hmem (by decide)
    rw [Socket.matchesPattern, if_neg hstar, findChar_append hdot]
    simp only [List.take_left, drop_append_cons]

/-- C5 witness: the pattern cases evaluated on the concrete socket
`robot1.odom`. -/
theorem matchesPattern_spec_witness :
    (sampleSocket.matchesPattern (toStr "*") = true)
    ∧ (sampleSocket.matchesPattern (toStr "noDot") = false)
    ∧ (sampleSocket.matchesPattern (toStr "robot1.odom") = true) := by
  refine ⟨(matchesPattern_spec sampleSocket).1, ?_, ?_⟩
  · exact (matchesPattern_spec sampleSocket).2.1 (toStr "noDot") (by decide) (by decide)
  · have h := (matchesPattern_spec sampleSocket).2.2 (toStr "robot1") (toStr "odom")
      (by decide)
    simpa using h

/-- C6: with an empty `B0_DEBUG_SOCKET` setting (the value when the variable
is absent), debug introspection is never enabled and `dumpPayload` produces
no trace output, for any session identity, mode, operation and payload. -/
theorem dumpPayload_disabled_by_default (s : Socket) (ext : Bool) (op : Str)
    (payload : List Nat) :
    debugEnabled s [] = false ∧ dumpPayload s [] ext op payload = none := by
  have hm : s.matchesPattern [] = false := by
    rw [Socket.matchesPattern, if_neg (by decide)]
    rfl
  have he : debugEnabled s [] = false := by
    simp [debugEnabled, splitAny, hm]
  exact ⟨he, by simp [dumpPayload, he]⟩

/-- C7: the compact debug rendering maps byte 10 to the two characters `\n`,
13 to `\r`, 9 to `\t`, every other byte outside 32..126 to the four-character
hex escape `\xHH`, and every byte in 32..126 to itself; payload `a`,10,`b`
renders as `a\nb`, byte 1 as `\x01`, byte 65 as `A`. -/
theorem renderByte_spec :
    (renderByte 10 = toStr "\\n" ∧ renderByte 13 = toStr "\\r"
      ∧ renderByte 9 = toStr "\\t")
    ∧ (∀ c : Nat, c ≠ 10 → c ≠ 13 → c ≠ 9 → (c < 32 ∨ 126 < c) →
        renderByte c = ['\\', 'x', hexDigit (c / 16), hexDigit (c % 16)]
          ∧ (renderByte c).length = 4)
    ∧ (∀ c : Nat, 32 ≤ c → c ≤ 126 → renderByte c = [Char.ofNat c])
    ∧ (renderPayload [97, 10, 98] = toStr "a\\nb"
        ∧ renderPayload [1] = toStr "\\x01" ∧ renderPayload [65] = toStr "A") := by
  refine ⟨⟨by decide, by decide, by decide⟩, ?_, ?_, by decide, by decide, by decide⟩
  · intro c h10 h13 h9 hout
    have hcond : (decide (c < 32) || decide (c > 126)) = true := by
      rcases hout with h | h <;> simp [h]
    rw [renderByte, if_neg h10, if_neg h13, if_neg h9, if_pos hcond]
    exact ⟨rfl, rfl⟩
  · intro c hlo hhi
    have h10 : c ≠ 10 := by omega
    have h13 : c ≠ 13 := by omega
    have h9 : c ≠ 9 := by omega
    have hcond : ¬((decide (c < 32) || decide (c > 126)) = true) := by
      simp only [Bool.or_eq_true, decide_eq_true_eq]
      omega
    rw [renderByte, if_neg h10, if_neg h13, if_neg h9, if_neg hcond]

/-- C7 witness: the hex and printable cases of the rendering evaluated at the
concrete bytes 1 and 65. -/
theorem renderByte_spec_witness :
    (renderByte 1 = ['\\', 'x', hexDigit 0, hexDigit 1]
      ∧ (renderByte 1).length = 4)
    ∧ renderByte 65 = [Char.ofNat 65] := by
  exact ⟨renderByte_spec.2.1 1 (by decide) (by decide) (by decide) (Or.inl (by decide)),
    renderByte_spec.2.2.1 65 (by decide) (by decide)⟩

/-- C8: immediately after construction, before any caller override, the
linger period of a socket is 5000 milliseconds, whatever the transport's
default option values were. -/
theorem construct_linger_5000 (node_name name : Str) (defaults : Int → Int) :
    getLingerPeriod (Socket.construct node_name name defaults) = 5000 := by
  simp [getLingerPeriod, getIntOption, Socket.construct, setLingerPeriod,
    setIntOption]

/-- C1: when the socket requires a header, every derived write operation that
wraps a parts list (`writeRaw(parts)`, and `writeRaw(msg, type)`,
`writeMsg(msg)`, `writeMsg(msg, parts)` which factor through it) puts
`headers["Header"] = name_` on the envelope sent on the wire; the caller
supplies no headers through these operations, so the session always asserts
its own identity. -/
theorem writeRaw_stamps_header (s : Socket) (hh : s.has_header_ = true) :
    (∀ parts, mapAt (writeRawParts s parts).headers hdrKey = some s.name_)
    ∧ (∀ msg ty, mapAt (writeRawStrType s msg ty).headers hdrKey = some s.name_)
    ∧ (∀ (M : Type) (mm : MsgModel M) (ser : M → Str) (m : M),
        mapAt (writeMsg1 mm ser s m).headers hdrKey = some s.name_)
    ∧ (∀ (M : Type) (mm : MsgModel M) (ser : M → Str) (m : M) parts,
        mapAt (writeMsg2 mm ser s m parts).headers hdrKey = some s.name_) := by
  have hp : ∀ parts, mapAt (writeRawParts s parts).headers hdrKey = some s.name_ := by
    intro parts
    simp [writeRawParts, hh, mapInsert, mapAt]
  exact ⟨hp, fun msg ty => hp _, fun M mm ser m => hp _, fun M mm ser m parts => hp _⟩

/-- C1 witness: the header stamped by a parts-list write on the concrete
socket `robot1.odom`. -/
theorem writeRaw_stamps_header_witness :
    mapAt (writeRawParts sampleSocket []).headers hdrKey = some (toStr "odom") :=
  (writeRaw_stamps_header sampleSocket rfl).1 []

/-- C2: when the socket requires a header, `readRaw` on a decoded envelope
looks up `headers["Header"]`: a missing key is a hard error (the
`std::out_of_range` of `map::at`, no default); a value different from the
socket's own name fails with `HeaderMismatch(actual, expected)`; a value equal
to the socket's own name lets the read succeed with the envelope. -/
theorem readRaw_header_check (s : Socket) (env : MessageEnvelope) (w : WireInput)
    (hh : s.has_header_ = true) (hok : w.recv_ok = true) (hm : w.more = false) :
    (mapAt env.headers hdrKey = none →
      readRawEnv (fun _ => .ok env) s w = .error .outOfRange)
    ∧ (∀ hdr, mapAt env.headers hdrKey = some hdr → hdr ≠ s.name_ →
        readRawEnv (fun _ => .ok env) s w = .error (.headerMismatch hdr s.name_))
    ∧ (mapAt env.headers hdrKey = some s.name_ →
        readRawEnv (fun _ => .ok env) s w = .ok env) := by
  rw [readRawEnv, hok, hm]
  refine ⟨?_, ?_, ?_⟩
  · intro hnone
    simp [hh, hnone]
  · intro hdr hsome hne
    simp [hh, hsome, hne]
  · intro hsome
    simp [hh, hsome]

/-- C2 witness: the concrete socket `odom` rejects an envelope whose header
reads `odom2` with `HeaderMismatch("odom2", "odom")` and accepts one whose
header reads `odom`. -/
theorem readRaw_header_check_witness :
    readRawEnv (fun _ => .ok sampleEnvBad) sampleSocket sampleWire
        = .error (.headerMismatch (toStr "odom2") (toStr "odom"))
    ∧ readRawEnv (fun _ => .ok sampleEnvGood) sampleSocket sampleWire
        = .ok sampleEnvGood :=
  ⟨(readRaw_header_check sampleSocket sampleEnvBad sampleWire rfl rfl rfl).2.1
      (toStr "odom2") rfl (by decide),
    (readRaw_header_check sampleSocket sampleEnvGood sampleWire rfl rfl rfl).2.2 rfl⟩

/-- C3: a received datagram whose transport flags say more frames follow makes
`readRaw` fail with `MessageTooManyPartsError`, whatever the payload and
whatever the envelope decoder would do with it — the decoder is never
consulted. -/
theorem readRaw_more_frames (decode : List Nat → Except SocketError MessageEnvelope)
    (s : Socket) (w : WireInput) (hok : w.recv_ok = true) (hmore : w.more = true) :
    readRawEnv decode s w = .error .messageTooManyPartsError := by
  rw [readRawEnv, hok, hmore]
  rfl

/-- C3 witness: a fragmented datagram rejected on the concrete socket, with a
decoder that would otherwise succeed. -/
theorem readRaw_more_frames_witness :
    readRawEnv (fun _ => .ok sampleEnvGood) sampleSocket
        { recv_ok := true, more := true, payload := [] }
      = .error .messageTooManyPartsError :=
  readRaw_more_frames (fun _ => .ok sampleEnvGood) sampleSocket
    { recv_ok := true, more := true, payload := [] } rfl rfl

/-- C4: once the raw read has produced a first part, `readMsg` fails with
`EnvelopeDecodeError` exactly when the first part's content type differs from
the expected message's type tag, and when they agree it decodes the payload
through the message's own decode operation — in the single-argument variant
and in the variant that also returns the remaining parts (with the consumed
first part removed). -/
theorem readMsg_type_check :
    (∀ (M : Type) (mm : MsgModel M) (decode : List Nat → Except SocketError MessageEnvelope)
        (s : Socket) (w : WireInput) (msg : M) (pl ty : Str),
      readRawStrType decode s w = some (.ok (pl, ty)) →
      ((readMsg1 mm decode s w msg = some (.error .envelopeDecodeError, msg)
          ↔ ty ≠ mm.type)
        ∧ (ty = mm.type →
            readMsg1 mm decode s w msg = some (.ok (), mm.parse msg pl))))
    ∧ (∀ (M : Type) (mm : MsgModel M) (decode : List Nat → Except SocketError MessageEnvelope)
        (s : Socket) (w : WireInput) (msg : M) (parts0 : List MessagePart)
        (p0 : MessagePart) (rest : List MessagePart),
      readRawParts decode s w = .ok (p0 :: rest) →
      ((readMsg2 mm decode s w msg parts0
            = some (.error .envelopeDecodeError, msg, p0 :: rest)
          ↔ p0.content_type ≠ mm.type)
        ∧ (p0.content_type = mm.type →
            readMsg2 mm decode s w msg parts0
              = some (.ok (), mm.parse msg p0.payload, rest)))) := by
  constructor
  · intro M mm decode s w msg pl ty h
    rw [readMsg1, h]
    by_cases hty : ty = mm.type
    · simp [hty]
    · simp [hty]
  · intro M mm decode s w msg parts0 p0 rest h
    rw [readMsg2, h]
    by_cases hty : p0.content_type = mm.type
    · simp [hty]
    · simp [hty]

/-- C4 witness: on the concrete socket, an envelope carrying content type `t`
is rejected by a message expecting type `u` and accepted, in both variants, by
a message expecting type `t`. -/
theorem readMsg_type_check_witness :
    readMsg1 (MsgModel.mk (toStr "u") (fun (m : Nat) _ => m + 1))
        (fun _ => .ok sampleEnvGood) sampleSocket sampleWire 0
      = some (.error .envelopeDecodeError, 0)
    ∧ readMsg2 (MsgModel.mk (toStr "t") (fun (m : Nat) _ => m + 1))
        (fun _ => .ok sampleEnvGood) sampleSocket sampleWire 0 []
      = some (.ok (), 1, []) :=
  ⟨(readMsg_type_check.1 Nat (MsgModel.mk (toStr "u") (fun m _ => m + 1))
      (fun _ => .ok sampleEnvGood) sampleSocket sampleWire 0 (toStr "x") (toStr "t")
      rfl).1.mpr (by decide),
    (readMsg_type_check.2 Nat (MsgModel.mk (toStr "t") (fun m _ => m + 1))
      (fun _ => .ok sampleEnvGood) sampleSocket sampleWire 0 []
      { payload := toStr "x", content_type := toStr "t",
        compression_algorithm := [], compression_level := 0 } []
      rfl).2 rfl⟩

/-- C9 counterexample: `readRaw(msg, type)` on an envelope that decodes to
zero parts performs the unguarded `parts[0]` access — undefined behaviour,
modelled as `none`: the call neither guards the access nor fails with a
defined error, refuting the claim's safety requirement at this input. -/
theorem readRawStrType_empty_is_ub :
    readRawStrType (fun _ => .ok { parts := [], headers := [] })
      (setHasHeader sampleSocket false) sampleWire = none := rfl

/-- C9 amended: `readRaw(msg, type)` yields the first part's payload and
content type whenever the decoded envelope carries at least one part; on an
envelope with zero parts the `parts[0]` access is unguarded — undefined
behaviour (no defined result), not a raised error. -/
theorem readRawStrType_first_part
    (decode : List Nat → Except SocketError MessageEnvelope) (s : Socket)
    (w : WireInput) (env : MessageEnvelope)
    (h : readRawEnv decode s w = .ok env) :
    (∀ p0 rest, env.parts = p0 :: rest →
      readRawStrType decode s w = some (.ok (p0.payload, p0.content_type)))
    ∧ (env.parts = [] → readRawStrType decode s w = none) := by
  constructor
  · intro p0 rest hparts
    rw [readRawStrType, readRawParts, h]
    simp [hparts]
  · intro hparts
    rw [readRawStrType, readRawParts, h]
    simp [hparts]

/-- C9 amended witness: on the concrete socket, a one-part envelope yields its
first part's payload `x` and content type `t`. -/
theorem readRawStrType_first_part_witness :
    readRawStrType (fun _ => .ok sampleEnvGood) sampleSocket sampleWire
      = some (.ok (toStr "x", toStr "t")) :=
  (readRawStrType_first_part (fun _ => .ok sampleEnvGood) sampleSocket sampleWire
      sampleEnvGood rfl).1
    { payload := toStr "x", content_type := toStr "t",
      compression_algorithm := [], compression_level := 0 } [] rfl

/-- C10: when `readMsg` fails with `EnvelopeDecodeError` on a content-type
mismatch, the caller's message object is returned unchanged, and the result is
the same whatever the message's decode operation would compute — the error is
raised before the decode operation is ever invoked, in both variants. -/
theorem readMsg_mismatch_leaves_msg :
    (∀ (M : Type) (ty : Str) (pf : M → Str → M)
        (decode : List Nat → Except SocketError MessageEnvelope)
        (s : Socket) (w : WireInput) (msg : M) (pl cty : Str),
      readRawStrType decode s w = some (.ok (pl, cty)) → cty ≠ ty →
      readMsg1 (MsgModel.mk ty pf) decode s w msg
        = some (.error .envelopeDecodeError, msg))
    ∧ (∀ (M : Type) (ty : Str) (pf : M → Str → M)
        (decode : List Nat → Except SocketError MessageEnvelope)
        (s : Socket) (w : WireInput) (msg : M) (parts0 : List MessagePart)
        (p0 : MessagePart) (rest : List MessagePart),
      readRawParts decode s w = .ok (p0 :: rest) → p0.content_type ≠ ty →
      readMsg2 (MsgModel.mk ty pf) decode s w msg parts0
        = some (.error .envelopeDecodeError, msg, p0 :: rest)) := by
  constructor
  · intro M ty pf decode s w msg pl cty h hne
    rw [readMsg1, h]
    simp [hne]
  · intro M ty pf decode s w msg parts0 p0 rest h hne
    rw [readMsg2, h]
    simp [hne]

/-- C10 witness: a mismatching read on the concrete socket leaves the caller's
message value 7 untouched in both variants, under a decode operation that
would change it. -/
theorem readMsg_mismatch_leaves_msg_witness :
    readMsg1 (MsgModel.mk (toStr "u") (fun (m : Nat) _ => m + 1))
        (fun _ => .ok sampleEnvGood) sampleSocket sampleWire 7
      = some (.error .envelopeDecodeError, 7)
    ∧ readMsg2 (MsgModel.mk (toStr "u") (fun (m : Nat) _ => m + 1))
        (fun _ => .ok sampleEnvGood) sampleSocket sampleWire 7 []
      = some (.error .envelopeDecodeError, 7,
          [{ payload := toStr "x", content_type := toStr "t",
             compression_algorithm := [], compression_level := 0 }]) :=
  ⟨readMsg_mismatch_leaves_msg.1 Nat (toStr "u") (fun m _ => m + 1)
      (fun _ => .ok sampleEnvGood) sampleSocket sampleWire 7 (toStr "x") (toStr "t")
      rfl (by decide),
    readMsg_mismatch_leaves_msg.2 Nat (toStr "u") (fun m _ => m + 1)
      (fun _ => .ok sampleEnvGood) sampleSocket sampleWire 7 []
      { payload := toStr "x", content_type := toStr "t",
        compression_algorithm := [], compression_level := 0 } []
      rfl (by decide)⟩

end B0
